import Mathlib

/-!
Shallow embedding of the client-side session controller in
`src/app/page.tsx` of the knowledgescout frontend.

The page component holds five pieces of React state
(`documents`, `question`, `chatHistory`, `loading`, `apiStatus`) and
four async handlers (`checkApiStatus`, `fetchDocuments`,
`handleFileUpload`, `askQuestion`) plus two pure display helpers
(`getFileIcon`, `getFileType`).  Each handler is embedded as a pure
function from the current `SessionState` and the outcome of its
network call(s) to the new `SessionState` together with the trace of
observable effects it performs (network requests, `alert` calls,
`console.error` calls, `setLoading` calls), in program order.

A `fetch` outcome is either a transport error (the promise rejects:
network failure, DNS, timeout) or a response with an `ok` flag
(2xx status) and a body; `await response.json()` either yields a
parsed value or rejects with a parse error, modelled by `JsonBody`.

String operations are modelled at the character-sequence level,
matching the JS semantics of `toLowerCase` (per-char lowering; the
source only ever compares ASCII extensions), `endsWith` (suffix of
the char sequence) and `trim` (strip whitespace from both ends).
-/

namespace KScout

/-- Per-character lowercasing, modelling `String.prototype.toLowerCase`
on the ASCII range the source uses. -/
def strToLower (s : String) : String :=
  ⟨s.data.map Char.toLower⟩

/-- Suffix test on the character sequence, modelling
`String.prototype.endsWith`. -/
def strEndsWith (s p : String) : Bool :=
  p.data.isSuffixOf s.data

/-- Strip whitespace from both ends, modelling `String.prototype.trim`. -/
def strTrim (s : String) : String :=
  ⟨((s.data.dropWhile Char.isWhitespace).reverse.dropWhile Char.isWhitespace).reverse⟩

/-- `interface Document` from the source: id, filename, content,
optional file_type. -/
structure Document where
  id : String
  filename : String
  content : String
  file_type : Option String
deriving DecidableEq

/-- An element of a `sources` array; the source only ever reads
`source.filename`. -/
structure SourceRef where
  filename : String
deriving DecidableEq

/-- `interface ChatMessage` from the source: question, answer, sources. -/
structure ChatMessage where
  question : String
  answer : String
  sources : List SourceRef
deriving DecidableEq

/-- The backend status enumeration
`'checking' | 'online' | 'offline'`. -/
inductive ApiStatus where
  | checking
  | online
  | offline
deriving DecidableEq

/-- The five `useState` cells of the page component. -/
structure SessionState where
  documents : List Document
  question : String
  chatHistory : List ChatMessage
  loading : Bool
  apiStatus : ApiStatus
deriving DecidableEq

/-- Outcome of `await response.json()`: `malformed err` when the body
is not valid JSON (the rejection throws into the surrounding `try`),
`parsed v` otherwise. -/
inductive JsonBody (β : Type) where
  | malformed (err : String)
  | parsed (val : β)
deriving DecidableEq

/-- Outcome of one `fetch` call.  `transportError err` models the
fetch promise rejecting (caught by the surrounding `try`), with
`err` the stringified error.  `response ok body` models a received
HTTP response: `ok` is `response.ok` (2xx status), and `body` is the
outcome of `await response.json()`. -/
inductive FetchResult (β : Type) where
  | transportError (err : String)
  | response (ok : Bool) (body : JsonBody β)
deriving DecidableEq

/-- Parsed body of `GET /documents/`: the source reads
`data.documents || []`, so the field is optional. -/
structure DocumentsBody where
  documents : Option (List Document)
deriving DecidableEq

/-- Parsed body of a successful `POST /upload/`. -/
structure UploadBody where
  filename : String
  file_type : String
deriving DecidableEq

/-- Parsed body of `POST /ask/`: the source reads `data.answer` and
`data.sources || []`. -/
structure AskBody where
  answer : String
  sources : Option (List SourceRef)
deriving DecidableEq

/-- Observable effects a handler performs, in program order. -/
inductive Ev where
  | netRequest (url : String)
  | alert (msg : String)
  | consoleError (msg : String) (err : String)
  | setLoadingEv (b : Bool)
deriving DecidableEq

def rootUrl : String := "https://knowledgescout-backend.onrender.com/"

def uploadUrl : String := "https://knowledgescout-backend.onrender.com/upload/"

def documentsUrl : String := "https://knowledgescout-backend.onrender.com/documents/"

def askUrl : String := "https://knowledgescout-backend.onrender.com/ask/"

/-- `checkApiStatus`: fetch the backend root; `online` when
`response.ok`, `offline` otherwise; the `catch` also sets `offline`.
The body is never read. -/
def checkApiStatus (s : SessionState) (r : FetchResult Unit) :
    SessionState × List Ev :=
  match r with
  | .response ok _ =>
      if ok then ({ s with apiStatus := .online }, [.netRequest rootUrl])
      else ({ s with apiStatus := .offline }, [.netRequest rootUrl])
  | .transportError _ =>
      ({ s with apiStatus := .offline }, [.netRequest rootUrl])

/-- `fetchDocuments`: fetch the document list and replace `documents`
with `data.documents || []`.  Note the source never checks
`response.ok`: any response whose body parses as JSON reaches
`setDocuments`.  The `catch` (transport error or JSON parse
failure) logs via `console.error` and changes nothing. -/
def fetchDocuments (s : SessionState) (r : FetchResult DocumentsBody) :
    SessionState × List Ev :=
  match r with
  | .transportError err =>
      (s, [.netRequest documentsUrl,
           .consoleError "Failed to fetch documents:" err])
  | .response _ body =>
      match body with
      | .malformed err =>
          (s, [.netRequest documentsUrl,
               .consoleError "Failed to fetch documents:" err])
      | .parsed data =>
          ({ s with documents := data.documents.getD [] },
           [.netRequest documentsUrl])

/-- The extension allowlist of `handleFileUpload`. -/
def allowedTypes : List String := [".txt", ".pdf", ".doc", ".docx"]

/-- `handleFileUpload`: `file` is the selected file name (`none` when
no file was selected, an early return).  On an invalid extension:
alert and return, before `setLoading` and before any fetch.  On a
valid one: `setLoading(true)`, POST the file; on `response.ok` with a
parseable body, alert success and fire `fetchDocuments` (whose own
outcome is `rDocs`); on a non-ok response, alert a fixed failure
notice; the `catch` (transport error or JSON parse failure of the
upload body) alerts with the error; `finally` does
`setLoading(false)`. -/
def handleFileUpload (s : SessionState) (file : Option String)
    (r : FetchResult UploadBody) (rDocs : FetchResult DocumentsBody) :
    SessionState × List Ev :=
  match file with
  | none => (s, [])
  | some name =>
    let fileName := strToLower name
    let isValidType := allowedTypes.any fun t => strEndsWith fileName t
    if !isValidType then
      (s, [.alert "Please upload .txt, .pdf, .doc, or .docx files only"])
    else
      match r with
      | .transportError err =>
          ({ s with loading := false },
           [.setLoadingEv true, .netRequest uploadUrl,
            .alert ("Upload failed: " ++ err), .setLoadingEv false])
      | .response ok body =>
          if ok then
            match body with
            | .malformed err =>
                ({ s with loading := false },
                 [.setLoadingEv true, .netRequest uploadUrl,
                  .alert ("Upload failed: " ++ err), .setLoadingEv false])
            | .parsed result =>
                let refreshed := fetchDocuments { s with loading := true } rDocs
                ({ refreshed.1 with loading := false },
                 [.setLoadingEv true, .netRequest uploadUrl,
                  .alert ("✅ " ++ result.filename ++ " uploaded successfully! ("
                          ++ result.file_type ++ ")")]
                 ++ refreshed.2 ++ [.setLoadingEv false])
          else
            ({ s with loading := false },
             [.setLoadingEv true, .netRequest uploadUrl,
              .alert "Upload failed. Please try again.", .setLoadingEv false])

/-- The fixed failure alert of `askQuestion`. -/
def askFailAlert : String :=
  "❌ Failed to get answer. Please check if backend is running."

/-- `askQuestion`: early return when the trimmed question is empty
(before `setLoading` and before any fetch).  Otherwise
`setLoading(true)`, POST the question; a non-ok response throws, so
transport error, non-ok status and JSON parse failure all land in the
`catch`, which alerts and changes no other state; on success, append
one turn built from the current `question`, `data.answer` and
`data.sources || []`, then clear `question`; `finally` does
`setLoading(false)`. -/
def askQuestion (s : SessionState) (r : FetchResult AskBody) :
    SessionState × List Ev :=
  if strTrim s.question = "" then (s, [])
  else
    match r with
    | .transportError _ =>
        ({ s with loading := false },
         [.setLoadingEv true, .netRequest askUrl,
          .alert askFailAlert, .setLoadingEv false])
    | .response ok body =>
        if !ok then
          ({ s with loading := false },
           [.setLoadingEv true, .netRequest askUrl,
            .alert askFailAlert, .setLoadingEv false])
        else
          match body with
          | .malformed _ =>
              ({ s with loading := false },
               [.setLoadingEv true, .netRequest askUrl,
                .alert askFailAlert, .setLoadingEv false])
          | .parsed data =>
              ({ s with
                  chatHistory := s.chatHistory ++
                    [{ question := s.question, answer := data.answer,
                       sources := data.sources.getD [] }],
                  question := "", loading := false },
               [.setLoadingEv true, .netRequest askUrl, .setLoadingEv false])

/-- `getFileIcon`: pure display helper on the lowercased filename. -/
def getFileIcon (filename : String) : String :=
  if strEndsWith (strToLower filename) ".pdf" then "📄"
  else if strEndsWith (strToLower filename) ".doc"
       || strEndsWith (strToLower filename) ".docx" then "📋"
  else "📝"

/-- `getFileType`: pure display helper on the lowercased filename. -/
def getFileType (filename : String) : String :=
  if strEndsWith (strToLower filename) ".pdf" then "PDF"
  else if strEndsWith (strToLower filename) ".doc" then "DOC"
  else if strEndsWith (strToLower filename) ".docx" then "DOCX"
  else "TXT"

/-- Busy-flag events of a trace. -/
def isBusyEv : Ev → Bool
  | .setLoadingEv _ => true
  | _ => false

/-- The subtrace of busy-flag events, in order. -/
def busyTrace (tr : List Ev) : List Ev :=
  tr.filter isBusyEv

/-- Network-request events of a trace. -/
def isNetEv : Ev → Bool
  | .netRequest _ => true
  | _ => false

/-- Number of requests a trace issues to a given URL. -/
def netCount (url : String) (tr : List Ev) : Nat :=
  tr.countP fun e => e == Ev.netRequest url

/-- The busy-flag discipline of one handler run: the busy flag is set
to true first, set to false last, toggled exactly once each way (so
it is held for the whole span in between), a request to `url` is
issued inside the span, and the final state is not busy. -/
def BusySpan (p : SessionState × List Ev) (url : String) : Prop :=
  busyTrace p.2 = [.setLoadingEv true, .setLoadingEv false] ∧
  p.2.head? = some (.setLoadingEv true) ∧
  p.2.getLast? = some (.setLoadingEv false) ∧
  Ev.netRequest url ∈ p.2 ∧
  p.1.loading = false

/-- A concrete session state with one document, used as a test
fixture. -/
def doc0 : Document :=
  { id := "1", filename := "a.txt", content := "hello", file_type := none }

def state0 : SessionState :=
  { documents := [doc0], question := "", chatHistory := [],
    loading := false, apiStatus := .checking }

/-- A fixture with a non-empty pending question. -/
def state1 : SessionState :=
  { documents := [], question := "What is X?", chatHistory := [],
    loading := false, apiStatus := .online }

/-- A fixture whose pending question is whitespace only. -/
def state2 : SessionState :=
  { state0 with question := "   " }

/-- A concrete successful ask response. -/
def askBody0 : AskBody :=
  { answer := "X is Y", sources := some [{ filename := "a.txt" }] }

/-- A concrete successful upload response. -/
def uploadBody0 : UploadBody :=
  { filename := "a.txt", file_type := "txt" }

/-- A concrete document-list response body. -/
def docsBody0 : DocumentsBody :=
  { documents := some [doc0] }

theorem strEndsWith_iff {s p : String} :
    strEndsWith s p = true ↔ p.data <:+ s.data := by
  simp [strEndsWith]

theorem not_strEndsWith_both {s p q : String}
    (hpq : ¬ p.data <:+ q.data) (hqp : ¬ q.data <:+ p.data)
    (h1 : strEndsWith s p = true) (h2 : strEndsWith s q = true) : False := by
  rw [strEndsWith_iff] at h1 h2
  rcases List.suffix_or_suffix_of_suffix h1 h2 with h | h
  · exact hpq h
  · exact hqp h

theorem endsWith_doc_not_pdf {l : String} (h : strEndsWith l ".doc" = true) :
    strEndsWith l ".pdf" = false := by
  cases hp : strEndsWith l ".pdf" with
  | false => rfl
  | true => exact (not_strEndsWith_both (by decide) (by decide) h hp).elim

theorem endsWith_docx_not_pdf {l : String} (h : strEndsWith l ".docx" = true) :
    strEndsWith l ".pdf" = false := by
  cases hp : strEndsWith l ".pdf" with
  | false => rfl
  | true => exact (not_strEndsWith_both (by decide) (by decide) h hp).elim

theorem endsWith_docx_not_doc {l : String} (h : strEndsWith l ".docx" = true) :
    strEndsWith l ".doc" = false := by
  cases hd : strEndsWith l ".doc" with
  | false => rfl
  | true => exact (not_strEndsWith_both (by decide) (by decide) h hd).elim

theorem filter_busy_fetchDocuments (s : SessionState) (r : FetchResult DocumentsBody) :
    (fetchDocuments s r).2.filter isBusyEv = [] := by
  rcases r with e | ⟨ok, e | b⟩ <;> rfl

/-- C1: as stated, the claim is false on the code: `fetchDocuments`
never inspects `response.ok`, so a non-success HTTP response whose
body parses as JSON does mutate `documents` (here replacing a
one-element list by the empty list) with no diagnostic logged. -/
theorem c1_counterexample :
    (fetchDocuments state0
        (FetchResult.response false (.parsed { documents := none }))).1.documents
      ≠ state0.documents := by
  decide

/-- C1 (amended): on a transport error, or when the response body
fails to parse as JSON, `fetchDocuments` leaves the whole state
unchanged and surfaces the failure only as a logged diagnostic
(no alert); the HTTP status is never inspected, so any response with
a parseable body — success or not — replaces `documents` with its
`documents` field (empty when absent). -/
theorem c1_amended_fetch_failure_frame (s : SessionState) (err : String) (ok : Bool) :
    fetchDocuments s (.transportError err) =
      (s, [.netRequest documentsUrl,
           .consoleError "Failed to fetch documents:" err]) ∧
    fetchDocuments s (.response ok (.malformed err)) =
      (s, [.netRequest documentsUrl,
           .consoleError "Failed to fetch documents:" err]) ∧
    ∀ b : DocumentsBody,
      (fetchDocuments s (.response ok (.parsed b))).1.documents
        = b.documents.getD [] :=
  ⟨rfl, rfl, fun _ => rfl⟩

/-- C2: every failing `askQuestion` run (non-success status or
transport error) leaves `chatHistory` and the pending `question`
unchanged and shows the fixed user-visible error alert. -/
theorem c2_ask_failure_frame (s : SessionState) (r : FetchResult AskBody)
    (err : String) (body : JsonBody AskBody)
    (hq : strTrim s.question ≠ "")
    (hr : r = .transportError err ∨ r = .response false body) :
    (askQuestion s r).1.chatHistory = s.chatHistory ∧
    (askQuestion s r).1.question = s.question ∧
    Ev.alert askFailAlert ∈ (askQuestion s r).2 := by
  rcases hr with h | h <;> subst h <;> simp [askQuestion, hq]

theorem c2_witness :
    (askQuestion state1 (.response false (.malformed "boom"))).1.chatHistory
        = state1.chatHistory ∧
    (askQuestion state1 (.response false (.malformed "boom"))).1.question
        = state1.question ∧
    Ev.alert askFailAlert ∈ (askQuestion state1 (.response false (.malformed "boom"))).2 :=
  c2_ask_failure_frame state1 _ "x" (.malformed "boom") (by decide) (Or.inr rfl)

/-- C3: a successful `askQuestion` with a non-empty trimmed question
appends exactly one turn, built from the current question, the
response answer and the response sources (empty when absent), at the
end of `chatHistory`, and clears the pending question. -/
theorem c3_ask_success_appends (s : SessionState) (b : AskBody)
    (hq : strTrim s.question ≠ "") :
    (askQuestion s (.response true (.parsed b))).1.chatHistory =
      s.chatHistory ++ [{ question := s.question, answer := b.answer,
                          sources := b.sources.getD [] }] ∧
    (askQuestion s (.response true (.parsed b))).1.question = "" := by
  simp [askQuestion, hq]

theorem c3_witness :
    (askQuestion state1 (.response true (.parsed askBody0))).1.chatHistory =
      state1.chatHistory ++ [{ question := state1.question, answer := askBody0.answer,
                               sources := askBody0.sources.getD [] }] ∧
    (askQuestion state1 (.response true (.parsed askBody0))).1.question = "" :=
  c3_ask_success_appends state1 askBody0 (by decide)

/-- C6: `checkApiStatus` sets the status to online exactly on a
success (2xx) response, to offline on every other outcome, and never
leaves it at checking. -/
theorem c6_probe_settles (s : SessionState) (r : FetchResult Unit) :
    (checkApiStatus s r).1.apiStatus =
      (match r with
       | .response true _ => ApiStatus.online
       | _ => ApiStatus.offline) ∧
    (checkApiStatus s r).1.apiStatus ≠ ApiStatus.checking := by
  rcases r with e | ⟨ok, body⟩
  · exact ⟨rfl, by simp [checkApiStatus]⟩
  · cases ok <;> exact ⟨rfl, by simp [checkApiStatus]⟩

/-- C9: when the trimmed pending question is empty, `askQuestion` is a
complete no-op: no state change and no observable effect at all. -/
theorem c9_empty_question_noop (s : SessionState) (r : FetchResult AskBody)
    (hq : strTrim s.question = "") :
    askQuestion s r = (s, []) := by
  simp [askQuestion, hq]

theorem c9_witness :
    askQuestion state2 (.transportError "down") = (state2, []) :=
  c9_empty_question_noop state2 _ (by decide)

/-- C4: on a file whose lowercased name has no allowed extension,
`handleFileUpload` leaves the entire state (documents, chatHistory,
question, loading, apiStatus) unchanged, performs no network request
at all, and shows the fixed rejection alert. -/
theorem c4_invalid_extension_rejected (s : SessionState) (name : String)
    (r : FetchResult UploadBody) (rDocs : FetchResult DocumentsBody)
    (h : allowedTypes.any (fun t => strEndsWith (strToLower name) t) = false) :
    (handleFileUpload s (some name) r rDocs).1 = s ∧
    (handleFileUpload s (some name) r rDocs).2.filter isNetEv = [] ∧
    Ev.alert "Please upload .txt, .pdf, .doc, or .docx files only"
      ∈ (handleFileUpload s (some name) r rDocs).2 := by
  simp [handleFileUpload, h, isNetEv]

theorem c4_witness :
    (handleFileUpload state0 (some "file.png")
        (.transportError "e") (.transportError "e2")).1 = state0 ∧
    (handleFileUpload state0 (some "file.png")
        (.transportError "e") (.transportError "e2")).2.filter isNetEv = [] ∧
    Ev.alert "Please upload .txt, .pdf, .doc, or .docx files only"
      ∈ (handleFileUpload state0 (some "file.png")
          (.transportError "e") (.transportError "e2")).2 :=
  c4_invalid_extension_rejected state0 "file.png" _ _ (by decide)

/-- C7: `getFileType` classifies by case-insensitive suffix: `.pdf`
maps to PDF, `.doc` to DOC, `.docx` to DOCX, and anything else to
the fallback TXT; in particular on "report.PDF" and "notes". -/
theorem c7_getFileType_classifier (f : String) :
    (strEndsWith (strToLower f) ".pdf" = true → getFileType f = "PDF") ∧
    (strEndsWith (strToLower f) ".doc" = true → getFileType f = "DOC") ∧
    (strEndsWith (strToLower f) ".docx" = true → getFileType f = "DOCX") ∧
    (strEndsWith (strToLower f) ".pdf" = false →
     strEndsWith (strToLower f) ".doc" = false →
     strEndsWith (strToLower f) ".docx" = false → getFileType f = "TXT") ∧
    getFileType "report.PDF" = "PDF" ∧ getFileType "notes" = "TXT" := by
  refine ⟨?_, ?_, ?_, ?_, by decide, by decide⟩
  · intro h
    simp [getFileType, h]
  · intro h
    simp [getFileType, h, endsWith_doc_not_pdf h]
  · intro h
    simp [getFileType, h, endsWith_docx_not_pdf h, endsWith_docx_not_doc h]
  · intro h1 h2 h3
    simp [getFileType, h1, h2, h3]

theorem c7_witness :
    getFileType "a.pdf" = "PDF" ∧ getFileType "b.DoC" = "DOC" ∧
    getFileType "c.docx" = "DOCX" ∧ getFileType "readme" = "TXT" :=
  ⟨(c7_getFileType_classifier "a.pdf").1 (by decide),
   (c7_getFileType_classifier "b.DoC").2.1 (by decide),
   (c7_getFileType_classifier "c.docx").2.2.1 (by decide),
   (c7_getFileType_classifier "readme").2.2.2.1 (by decide) (by decide) (by decide)⟩

theorem hfu_valid_transport (s : SessionState) (name err : String)
    (rDocs : FetchResult DocumentsBody)
    (hname : allowedTypes.any (fun t => strEndsWith (strToLower name) t) = true) :
    handleFileUpload s (some name) (.transportError err) rDocs =
      ({ s with loading := false },
       [.setLoadingEv true, .netRequest uploadUrl,
        .alert ("Upload failed: " ++ err), .setLoadingEv false]) := by
  simp [handleFileUpload, hname]

theorem hfu_valid_notOk (s : SessionState) (name : String)
    (body : JsonBody UploadBody) (rDocs : FetchResult DocumentsBody)
    (hname : allowedTypes.any (fun t => strEndsWith (strToLower name) t) = true) :
    handleFileUpload s (some name) (.response false body) rDocs =
      ({ s with loading := false },
       [.setLoadingEv true, .netRequest uploadUrl,
        .alert "Upload failed. Please try again.", .setLoadingEv false]) := by
  simp [handleFileUpload, hname]

theorem hfu_valid_ok_malformed (s : SessionState) (name err : String)
    (rDocs : FetchResult DocumentsBody)
    (hname : allowedTypes.any (fun t => strEndsWith (strToLower name) t) = true) :
    handleFileUpload s (some name) (.response true (.malformed err)) rDocs =
      ({ s with loading := false },
       [.setLoadingEv true, .netRequest uploadUrl,
        .alert ("Upload failed: " ++ err), .setLoadingEv false]) := by
  simp [handleFileUpload, hname]

theorem hfu_valid_ok_parsed (s : SessionState) (name : String) (b : UploadBody)
    (rDocs : FetchResult DocumentsBody)
    (hname : allowedTypes.any (fun t => strEndsWith (strToLower name) t) = true) :
    handleFileUpload s (some name) (.response true (.parsed b)) rDocs =
      ({ (fetchDocuments { s with loading := true } rDocs).1 with loading := false },
       [.setLoadingEv true, .netRequest uploadUrl,
        .alert ("✅ " ++ b.filename ++ " uploaded successfully! ("
                ++ b.file_type ++ ")")]
       ++ (fetchDocuments { s with loading := true } rDocs).2
       ++ [.setLoadingEv false]) := by
  simp [handleFileUpload, hname]

/-- C5: for a valid upload and a non-empty ask, across every outcome
(success, non-success response, malformed body, transport error) the
busy flag is set true first, the network request is issued inside
the busy span, the flag is set false last with no other toggle in
between, and the final state is not busy. -/
theorem c5_busy_span (s t : SessionState) (name : String)
    (rU : FetchResult UploadBody) (rD : FetchResult DocumentsBody)
    (rA : FetchResult AskBody)
    (hname : allowedTypes.any (fun ty => strEndsWith (strToLower name) ty) = true)
    (hq : strTrim t.question ≠ "") :
    BusySpan (handleFileUpload s (some name) rU rD) uploadUrl ∧
    BusySpan (askQuestion t rA) askUrl := by
  constructor
  · rcases rU with e | ⟨ok, body⟩
    · rw [hfu_valid_transport s name e rD hname]
      refine ⟨rfl, rfl, rfl, ?_, rfl⟩
      simp
    · cases ok
      · rw [hfu_valid_notOk s name body rD hname]
        refine ⟨rfl, rfl, rfl, ?_, rfl⟩
        simp
      · rcases body with e | b
        · rw [hfu_valid_ok_malformed s name e rD hname]
          refine ⟨rfl, rfl, rfl, ?_, rfl⟩
          simp
        · rw [hfu_valid_ok_parsed s name b rD hname]
          refine ⟨?_, rfl, ?_, ?_, rfl⟩
          · simp [busyTrace, List.filter_append, List.filter_cons,
                  filter_busy_fetchDocuments, isBusyEv]
          · exact List.getLast?_concat _
          · exact List.mem_append_left _ (by simp)
  · unfold askQuestion
    rw [if_neg hq]
    rcases rA with e | ⟨ok, body⟩
    · refine ⟨rfl, rfl, rfl, ?_, rfl⟩
      simp
    · cases ok
      · refine ⟨rfl, rfl, rfl, ?_, rfl⟩
        simp
      · rcases body with e | b
        · refine ⟨rfl, rfl, rfl, ?_, rfl⟩
          simp
        · refine ⟨rfl, rfl, rfl, ?_, rfl⟩
          simp

theorem c5_witness :
    BusySpan (handleFileUpload state0 (some "a.txt")
        (.transportError "e") (.transportError "e2")) uploadUrl ∧
    BusySpan (askQuestion state1 (.response true (.parsed askBody0))) askUrl :=
  c5_busy_span state0 state1 "a.txt" _ _ _ (by decide) (by decide)

theorem setLoadingEv_beq_netRequest (b : Bool) (u : String) :
    (Ev.setLoadingEv b == Ev.netRequest u) = false := by
  simp

theorem alert_beq_netRequest (m u : String) :
    (Ev.alert m == Ev.netRequest u) = false := by
  simp

theorem consoleError_beq_netRequest (m e u : String) :
    (Ev.consoleError m e == Ev.netRequest u) = false := by
  simp

theorem upload_beq_docs :
    (Ev.netRequest uploadUrl == Ev.netRequest documentsUrl) = false := by
  decide

theorem docs_beq_docs :
    (Ev.netRequest documentsUrl == Ev.netRequest documentsUrl) = true := by
  decide

theorem netCount_append (u : String) (l1 l2 : List Ev) :
    netCount u (l1 ++ l2) = netCount u l1 + netCount u l2 := by
  simp [netCount]

theorem netCount_cons (u : String) (e : Ev) (tr : List Ev) :
    netCount u (e :: tr) = netCount u tr + if e == Ev.netRequest u then 1 else 0 :=
  List.countP_cons _ _ _

theorem netCount_nil (u : String) : netCount u [] = 0 := rfl

theorem netCount_docs_fetchDocuments (s : SessionState) (r : FetchResult DocumentsBody) :
    netCount documentsUrl (fetchDocuments s r).2 = 1 := by
  rcases r with e | ⟨ok, e | bdy⟩ <;>
    simp [fetchDocuments, netCount_cons, netCount_nil, docs_beq_docs,
          consoleError_beq_netRequest]

/-- C8 counterexample: a 2xx upload response whose body is not valid
JSON throws at `response.json()` before `fetchDocuments()` is
reached, so a succeeding (2xx) upload issues no document-list
request at all, refuting invoked-exactly-once. -/
theorem c8_counterexample :
    ¬ netCount documentsUrl
        (handleFileUpload state0 (some "a.txt")
          (FetchResult.response true (.malformed "bad json"))
          (FetchResult.response true (.parsed docsBody0))).2 = 1 := by
  decide

/-- C8 (amended): for a valid file, when the upload response is 2xx
and its body parses as JSON, `fetchDocuments` is invoked exactly
once, and if the document-list response body parses, `documents`
becomes the returned snapshot (its `documents` field, empty when
absent); on a non-success response or transport error it is not
invoked. -/
theorem c8_amended_refresh_after_upload (s : SessionState) (name : String)
    (b : UploadBody) (rD : FetchResult DocumentsBody) (err : String)
    (body : JsonBody UploadBody)
    (hname : allowedTypes.any (fun ty => strEndsWith (strToLower name) ty) = true) :
    netCount documentsUrl
      (handleFileUpload s (some name) (.response true (.parsed b)) rD).2 = 1 ∧
    (∀ ok db, rD = .response ok (.parsed db) →
      (handleFileUpload s (some name) (.response true (.parsed b)) rD).1.documents
        = db.documents.getD []) ∧
    netCount documentsUrl
      (handleFileUpload s (some name) (.response false body) rD).2 = 0 ∧
    netCount documentsUrl
      (handleFileUpload s (some name) (.transportError err) rD).2 = 0 := by
  refine ⟨?_, ?_, ?_, ?_⟩
  · rw [hfu_valid_ok_parsed s name b rD hname]
    simp [netCount_append, netCount_cons, netCount_nil,
          netCount_docs_fetchDocuments, upload_beq_docs,
          setLoadingEv_beq_netRequest, alert_beq_netRequest]
  · intro ok db hrd
    subst hrd
    rw [hfu_valid_ok_parsed s name b _ hname]
    rfl
  · rw [hfu_valid_notOk s name body rD hname]
    simp [netCount_cons, netCount_nil, upload_beq_docs,
          setLoadingEv_beq_netRequest, alert_beq_netRequest]
  · rw [hfu_valid_transport s name err rD hname]
    simp [netCount_cons, netCount_nil, upload_beq_docs,
          setLoadingEv_beq_netRequest, alert_beq_netRequest]

theorem c8_witness :
    netCount documentsUrl
      (handleFileUpload state0 (some "a.txt")
        (.response true (.parsed uploadBody0))
        (.response true (.parsed docsBody0))).2 = 1 ∧
    (handleFileUpload state0 (some "a.txt")
        (.response true (.parsed uploadBody0))
        (.response true (.parsed docsBody0))).1.documents
      = docsBody0.documents.getD [] ∧
    netCount documentsUrl
      (handleFileUpload state0 (some "a.txt")
        (.response false (.malformed "m"))
        (.response true (.parsed docsBody0))).2 = 0 ∧
    netCount documentsUrl
      (handleFileUpload state0 (some "a.txt")
        (.transportError "e")
        (.response true (.parsed docsBody0))).2 = 0 :=
  ⟨(c8_amended_refresh_after_upload state0 "a.txt" uploadBody0
      (.response true (.parsed docsBody0)) "e" (.malformed "m") (by decide)).1,
   (c8_amended_refresh_after_upload state0 "a.txt" uploadBody0
      (.response true (.parsed docsBody0)) "e" (.malformed "m") (by decide)).2.1
     true docsBody0 rfl,
   (c8_amended_refresh_after_upload state0 "a.txt" uploadBody0
      (.response true (.parsed docsBody0)) "e" (.malformed "m") (by decide)).2.2.1,
   (c8_amended_refresh_after_upload state0 "a.txt" uploadBody0
      (.response true (.parsed docsBody0)) "e" (.malformed "m") (by decide)).2.2.2⟩

/-- C10: the two display helpers classify consistently: the PDF icon
appears exactly for type PDF, the clipboard icon exactly for types
DOC and DOCX, and the fallback icon exactly for the fallback type
TXT. -/
theorem c10_icon_type_consistent (f : String) :
    (getFileIcon f = "📄" ↔ getFileType f = "PDF") ∧
    (getFileIcon f = "📋" ↔ (getFileType f = "DOC" ∨ getFileType f = "DOCX")) ∧
    (getFileIcon f = "📝" ↔ getFileType f = "TXT") := by
  unfold getFileIcon getFileType
  cases hp : strEndsWith (strToLower f) ".pdf" <;>
    cases hd : strEndsWith (strToLower f) ".doc" <;>
      cases hx : strEndsWith (strToLower f) ".docx" <;>
        decide

end KScout
